import Mathlib

/-!
Shallow embedding of the minimal Wayland compositor's message codec and
connection dispatcher (src/main.rs), together with theorems checking the
specification's claims about it.

Machine integers are modelled as `Nat` with explicit `% 2 ^ 32` where the
source's `u32` arithmetic can wrap.  Byte order is little endian, the
native order of the x86-64/aarch64 targets the program is built for
(`to_ne_bytes` / `from_ne_bytes` in the source).  Rust panics and aborts
(index out of bounds, arithmetic underflow) are modelled by the explicit
outcome `Outcome.panicked`, distinct from the `io::Error` outcome.
-/

namespace Wayland

/-- Little-endian byte encoding of a `u32`, as produced by `to_ne_bytes`
on the program's little-endian targets.  For `n ≥ 2 ^ 32` this encodes
`n % 2 ^ 32`, matching the `as u32` truncation in the source. -/
def u32ToBytes (n : Nat) : List Nat :=
  [n % 256, n / 256 % 256, n / 65536 % 256, n / 16777216 % 256]

/-- Little-endian `u32` decoding of four bytes, as in
`u32::from_ne_bytes([b0, b1, b2, b3])` (src/main.rs lines 53-54). -/
def u32FromBytes (b0 b1 b2 b3 : Nat) : Nat :=
  b0 + 256 * b1 + 65536 * b2 + 16777216 * b3

/-- Header decoding of src/main.rs lines 53-56: object id from the first
four bytes, then `size = size_opcode >> 16` and
`opcode = size_opcode & 0xFFFF` from the second word. -/
def decode_header (b0 b1 b2 b3 b4 b5 b6 b7 : Nat) : Nat × Nat × Nat :=
  let obj_id := u32FromBytes b0 b1 b2 b3
  let size_opcode := u32FromBytes b4 b5 b6 b7
  (obj_id, size_opcode / 65536, size_opcode % 65536)

/-- Bytes of an ASCII string, as `interface.as_bytes()` in
`send_global_event` (for the ASCII interface names used by the program,
UTF-8 bytes coincide with the character codes). -/
def strBytes (s : String) : List Nat :=
  s.data.map Char.toNat

/-- Rounding up to a multiple of 4, src/main.rs line 122:
`(interface_len + 3) & !3` clears the two low bits of
`interface_len + 3`, i.e. rounds `interface_len` up to a multiple of 4. -/
def aligned4 (x : Nat) : Nat :=
  (x + 3) / 4 * 4

/-- Null-terminated, zero-padded-to-a-multiple-of-4 string encoding
written by src/main.rs lines 140-146: the interface bytes, the null
terminator, then zero padding until the next 4-byte boundary
(the `while msg.len() < size - 4` loop pushes
`aligned_len - interface_len` zeros). -/
def pad_string (s : String) : List Nat :=
  let bs := strBytes s
  bs ++ [0] ++ List.replicate (aligned4 (bs.length + 1) - (bs.length + 1)) 0

/-- The byte message built by `Client::send_global_event`
(src/main.rs lines 113-153): registry id, `(size << 16) as u32`
(opcode `global` = 0 implicit in the low bits), numeric name, padded
interface string, version. -/
def send_global_event_msg (registry_id name : Nat) (interface : String)
    (version : Nat) : List Nat :=
  let interface_len := (strBytes interface).length + 1
  let size := 16 + aligned4 interface_len
  u32ToBytes registry_id
    ++ u32ToBytes ((size <<< 16) % 4294967296)
    ++ u32ToBytes name
    ++ pad_string interface
    ++ u32ToBytes version

/-- The 12 response bytes of the `wl_display.sync` handler
(src/main.rs lines 71-88): the callback id, then the literal bytes
`12, 0, 0, 0` the source pushes for the size/opcode word, then the
four zero payload bytes. -/
def sync_response (callback_id : Nat) : List Nat :=
  u32ToBytes callback_id ++ [12, 0, 0, 0] ++ [0, 0, 0, 0]

/-- Per-connection dispatcher state: the object table (`HashMap<u32,
String>`, modelled as an association list with `HashMap` lookup/insert
semantics) and the next-id counter. -/
structure Client where
  objects : List (Nat × String)
  next_id : Nat
  deriving DecidableEq

/-- Constructor `Client::new` (src/main.rs lines 32-41): table seeded with the
display object, next id = `REGISTRY_ID` = 2. -/
def Client.new : Client :=
  { objects := [(1, "wl_display")], next_id := 2 }

/-- The `HashMap::insert` operation on the association-list model: overwrite the
binding in place if the key is present, append otherwise. -/
def insertObj (id : Nat) (iface : String) :
    List (Nat × String) → List (Nat × String)
  | [] => [(id, iface)]
  | (k, v) :: rest =>
      if k = id then (id, iface) :: rest else (k, v) :: insertObj id iface rest

/-- The `HashMap::get` operation on the association-list model. -/
def lookupObj (id : Nat) : List (Nat × String) → Option String
  | [] => none
  | (k, v) :: rest => if k = id then some v else lookupObj id rest

/-- Reading `body[0..3]` as a `u32` (src/main.rs lines 67 and 92);
`none` models the Rust index-out-of-bounds panic when the body has
fewer than 4 bytes. -/
def read_u32_at_0 : List Nat → Option Nat
  | n0 :: n1 :: n2 :: n3 :: _ => some (u32FromBytes n0 n1 n2 n3)
  | _ => none

/-- Outcome of one `handle_message` call.  `cont` is `Ok(true)`,
`disconnected` is `Ok(false)`, `ioErr` is `Err(e)`, and `panicked`
models a Rust panic/abort (arithmetic underflow, index out of bounds),
which is not a return value at all. -/
inductive Outcome where
  | cont
  | disconnected
  | ioErr
  | panicked
  deriving DecidableEq

/-- The `match (obj_id, opcode)` block of `Client::handle_message`
(src/main.rs lines 63-108), with the Rust match's arm order: the
`wl_display.sync` arm, the `wl_display.get_registry` arm, the guarded
`wl_registry.bind` arm, and the logged-only unknown arm.  `body` is the
message body, `rest2` the input left after this message. -/
def dispatch (c : Client) (obj_id opcode : Nat) (body rest2 : List Nat) :
    Outcome × Client × List Nat × List Nat :=
  if obj_id = 1 ∧ opcode = 0 then
    -- wl_display.sync (lines 65-89)
    match read_u32_at_0 body with
    | some callback_id =>
        (Outcome.cont,
         { c with objects := insertObj callback_id ("wl_callback") c.objects },
         rest2,
         sync_response callback_id)
    | none => (Outcome.panicked, c, rest2, [])
  else if obj_id = 1 ∧ opcode = 1 then
    -- wl_display.get_registry (lines 90-100); `registry_id + 1` is u32
    -- addition, hence the `% 2 ^ 32` (wrapping in release builds)
    match read_u32_at_0 body with
    | some registry_id =>
        (Outcome.cont,
         { objects := insertObj registry_id ("wl_registry") c.objects,
           next_id := (registry_id + 1) % 4294967296 },
         rest2,
         send_global_event_msg registry_id 1 ("wl_compositor") 4
           ++ send_global_event_msg registry_id 2 ("xdg_wm_base") 3
           ++ send_global_event_msg registry_id 3 ("wl_shm") 1)
    | none => (Outcome.panicked, c, rest2, [])
  else if opcode = 0 ∧ lookupObj obj_id c.objects = some ("wl_registry") then
    -- wl_registry.bind (lines 101-104): deliberate no-op
    (Outcome.cont, c, rest2, [])
  else
    -- unknown message (lines 105-107): logged only
    (Outcome.cont, c, rest2, [])

/-- The function `Client::handle_message` (src/main.rs lines 43-111) over the bytes
the client sends before closing its stream.  Returns the outcome, the
new state, the unconsumed input, and the response bytes written.

The stream's `read_exact` is the external collaborator of spec §6:
it reports the distinguished clean-EOF outcome (`ErrorKind::UnexpectedEof`,
mapped to `Ok(false)` by lines 46-51) only when zero bytes of the header
have been consumed, and an error of another kind for a partial read.

When the decoded `size` is under 8, the source computes
`size as usize - 8` (line 59), which underflows: a panic in debug
builds, and in release builds a wrapped length whose `vec![0u8; ...]`
allocation aborts — modelled as `Outcome.panicked`. -/
def handle_message (c : Client) (input : List Nat) :
    Outcome × Client × List Nat × List Nat :=
  match input with
  | [] => (Outcome.disconnected, c, [], [])
  | b0 :: b1 :: b2 :: b3 :: b4 :: b5 :: b6 :: b7 :: rest =>
      let dec := decode_header b0 b1 b2 b3 b4 b5 b6 b7
      let size := dec.2.1
      if size < 8 then (Outcome.panicked, c, rest, [])
      else
        let body_size := size - 8
        if rest.length < body_size then (Outcome.ioErr, c, rest, [])
        else dispatch c dec.1 dec.2.2 (rest.take body_size) (rest.drop body_size)
  | _ => (Outcome.ioErr, c, input, [])

/-- States reachable from the fresh connection state by any sequence of
`handle_message` calls. -/
inductive Reachable : Client → Prop where
  | init : Reachable Client.new
  | step (c : Client) (input : List Nat) :
      Reachable c → Reachable (handle_message c input).2.1

/-- Modelled from the spec: `encode_event` of §4.1, the codec's event
producer — `object_id (4 bytes) || (len << 16 | opcode as u32) (4 bytes)
|| payload` with `len = 8 + payload.len()`.  The source has no such
named function: it inlines this encoding in `send_global_event`
(src/main.rs lines 128-151, with opcode 0) and in the sync response. -/
def encode_event (object_id opcode : Nat) (payload : List Nat) : List Nat :=
  u32ToBytes object_id
    ++ u32ToBytes ((((8 + payload.length) <<< 16) ||| opcode) % 4294967296)
    ++ payload

/-! Helper lemmas about the embedding -/

/-- Decoding the four little-endian bytes of `w` recovers `w % 2 ^ 32`. -/
theorem u32_from_to (w : Nat) :
    u32FromBytes (w % 256) (w / 256 % 256) (w / 65536 % 256) (w / 16777216 % 256) =
      w % 4294967296 := by
  unfold u32FromBytes
  omega

/-- Reading `body[0..3]` from a body beginning with an encoded `u32`. -/
theorem read_u32_at_0_encoded (n : Nat) (l : List Nat) :
    read_u32_at_0 (u32ToBytes n ++ l) = some (n % 4294967296) := by
  show some (u32FromBytes (n % 256) (n / 256 % 256) (n / 65536 % 256)
    (n / 16777216 % 256)) = _
  rw [u32_from_to]

/-- A body shorter than 4 bytes makes the `body[0..3]` access panic. -/
theorem read_u32_at_0_short (l : List Nat) (h : l.length < 4) :
    read_u32_at_0 l = none := by
  match l with
  | [] => rfl
  | [_] => rfl
  | [_, _] => rfl
  | [_, _, _] => rfl
  | _ :: _ :: _ :: _ :: _ =>
      simp only [List.length_cons] at h
      omega

/-- Lookup after an insert on the association-list model. -/
theorem lookup_insertObj (id k : Nat) (v : String) (t : List (Nat × String)) :
    lookupObj id (insertObj k v t) = if k = id then some v else lookupObj id t := by
  induction t with
  | nil => simp [insertObj, lookupObj]
  | cons hd tl ih =>
      rcases hd with ⟨a, b⟩
      by_cases hak : a = k
      · subst hak
        simp only [insertObj, if_pos rfl, lookupObj]
        by_cases hai : a = id <;> simp [hai]
      · simp only [insertObj, if_neg hak, lookupObj, ih]
        split_ifs <;> simp_all

/-- Every `dispatch` branch leaves the object table alone or performs one
`HashMap::insert`. -/
theorem dispatch_objects (c : Client) (oid op : Nat) (body rest2 : List Nat) :
    (dispatch c oid op body rest2).2.1.objects = c.objects ∨
      ∃ k v, (dispatch c oid op body rest2).2.1.objects = insertObj k v c.objects := by
  unfold dispatch
  repeat' split
  all_goals first
    | exact Or.inl rfl
    | exact Or.inr ⟨_, _, rfl⟩

/-- Every `handle_message` outcome leaves the object table alone or
performs one `HashMap::insert`. -/
theorem handle_message_objects (c : Client) (input : List Nat) :
    (handle_message c input).2.1.objects = c.objects ∨
      ∃ k v, (handle_message c input).2.1.objects = insertObj k v c.objects := by
  unfold handle_message
  split
  · exact Or.inl rfl
  · dsimp only
    repeat' split
    all_goals first
      | exact Or.inl rfl
      | exact dispatch_objects c _ _ _ _
  · exact Or.inl rfl

/-- A well-formed frame (size field `sz`, opcode `op`, enough body bytes)
reaches the dispatch block with the decoded header fields. -/
theorem handle_message_frame (c : Client) (oid sz op : Nat) (rest : List Nat)
    (hoid : oid < 4294967296) (hsz : sz < 65536) (hop : op < 65536)
    (h8 : 8 ≤ sz) (hrest : sz - 8 ≤ rest.length) :
    handle_message c (u32ToBytes oid ++ u32ToBytes (65536 * sz + op) ++ rest) =
      dispatch c oid op (rest.take (sz - 8)) (rest.drop (sz - 8)) := by
  have hw : 65536 * sz + op < 4294967296 := by omega
  simp only [u32ToBytes, List.cons_append, List.nil_append, handle_message,
    decode_header, u32_from_to]
  rw [Nat.mod_eq_of_lt hoid, Nat.mod_eq_of_lt hw]
  have hdiv : (65536 * sz + op) / 65536 = sz := by omega
  have hmod : (65536 * sz + op) % 65536 = op := by omega
  rw [hdiv, hmod]
  rw [if_neg (by omega : ¬ sz < 8), if_neg (Nat.not_lt.mpr hrest)]

/-- Shifting 16 bits left then or-ing in a 16-bit value is the same as
packing by arithmetic. -/
theorem shiftLeft16_lor_eq (a b : Nat) (hb : b < 65536) :
    a <<< 16 ||| b = 65536 * a + b := by
  rw [Nat.shiftLeft_eq]
  have h2 := (Nat.mul_add_lt_is_or (by omega : b < 2 ^ 16) a).symm
  norm_num at h2
  rw [Nat.mul_comm a 65536]
  exact h2

/-! Claim theorems -/

/-- C1: a `wl_display.sync` request with callback id 42 registers 42 as
`wl_callback` and writes exactly one 12-byte event — but the event's
second header word is the literal bytes `12, 0, 0, 0` (the `u32` value
12, i.e. size 0 and opcode 12), not `(12 << 16) | 0` (bytes
`0, 0, 12, 0`) as the claim states. -/
theorem c1_sync_event_eval :
    handle_message Client.new [1, 0, 0, 0, 0, 0, 12, 0, 42, 0, 0, 0] =
      (Outcome.cont,
       { objects := [(1, "wl_display"), (42, "wl_callback")], next_id := 2 },
       [],
       [42, 0, 0, 0, 12, 0, 0, 0, 0, 0, 0, 0]) ∧
    sync_response 42 = u32ToBytes 42 ++ u32ToBytes 12 ++ u32ToBytes 0 ∧
    (12 : Nat) ≠ 12 <<< 16 ||| 0 ∧
    u32ToBytes (12 <<< 16 ||| 0) = [0, 0, 12, 0] ∧
    decode_header 42 0 0 0 12 0 0 0 = (42, 0, 12) := by
  decide

/-- C3: a message whose header size field is under 8 (here 0) makes
`handle_message` hit the `size as usize - 8` underflow — a Rust panic
(or wrapped-length allocation abort), not an `io::Error` return. -/
theorem c3_size_under_8_eval :
    decode_header 1 0 0 0 0 0 0 0 = (1, 0, 0) ∧
    handle_message Client.new [1, 0, 0, 0, 0, 0, 0, 0] =
      (Outcome.panicked, Client.new, [], []) ∧
    Outcome.panicked ≠ Outcome.ioErr := by
  decide

/-- C4: end-of-input before any header byte yields the clean-disconnect
outcome `Ok(false)`; end-of-input after only 4 of the 8 header bytes
yields an error outcome (the stream's `read_exact` reports the
distinguished clean-EOF kind only at zero bytes consumed, per the
collaborator contract of spec §6). -/
theorem c4_eof_handling (c : Client) (b0 b1 b2 b3 : Nat) :
    handle_message c [] = (Outcome.disconnected, c, [], []) ∧
    handle_message c [b0, b1, b2, b3] = (Outcome.ioErr, c, [b0, b1, b2, b3], []) := by
  exact ⟨rfl, rfl⟩

/-- C10: a message to object 1 with opcode 0 or 1 and a header size
field of 8..11 gives a body shorter than 4 bytes, so the `body[0..3]`
access is out of bounds: handling panics rather than completing
normally or returning an `io::Error`.  A size of at least 12 is an
unstated precondition of the sync and get_registry handlers. -/
theorem c10_small_size_panics (c : Client) (sz op : Nat) (rest : List Nat)
    (hsz8 : 8 ≤ sz) (hsz11 : sz ≤ 11) (hop : op = 0 ∨ op = 1)
    (hrest : sz - 8 ≤ rest.length) :
    (handle_message c (u32ToBytes 1 ++ u32ToBytes (65536 * sz + op) ++ rest)).1 =
      Outcome.panicked ∧
    Outcome.panicked ≠ Outcome.ioErr ∧ Outcome.panicked ≠ Outcome.cont ∧
    Outcome.panicked ≠ Outcome.disconnected := by
  have hop' : op < 65536 := by rcases hop with h | h <;> omega
  rw [handle_message_frame c 1 sz op rest (by omega) (by omega) hop' hsz8 hrest]
  have hshort : read_u32_at_0 (rest.take (sz - 8)) = none := by
    apply read_u32_at_0_short
    have h := List.length_take (sz - 8) rest
    omega
  refine ⟨?_, by decide, by decide, by decide⟩
  rcases hop with h | h <;> subst h <;> unfold dispatch
  · rw [if_pos ⟨rfl, rfl⟩, hshort]
  · rw [if_neg (by simp), if_pos ⟨rfl, rfl⟩, hshort]

/-- Witness for C10 at the concrete input: state fresh, object 1,
opcode 0, size field 8, empty remaining input. -/
theorem c10_small_size_panics_witness :
    (8 ≤ 8 ∧ 8 ≤ 11 ∧ ((0 : Nat) = 0 ∨ (0 : Nat) = 1) ∧
      8 - 8 ≤ ([] : List Nat).length) ∧
    ((handle_message Client.new (u32ToBytes 1 ++ u32ToBytes (65536 * 8 + 0) ++ [])).1 =
        Outcome.panicked ∧
      Outcome.panicked ≠ Outcome.ioErr ∧ Outcome.panicked ≠ Outcome.cont ∧
      Outcome.panicked ≠ Outcome.disconnected) :=
  ⟨⟨by decide, by decide, Or.inl rfl, by decide⟩,
   c10_small_size_panics Client.new 8 0 [] (by decide) (by decide) (Or.inl rfl) (by decide)⟩

/-- C8 (amended): a message whose pair is none of `(1,0)`, `(1,1)`, or
`(id,0)` with `id` mapped to `"wl_registry"` writes no bytes, leaves
the state unchanged, and returns `Ok(true)`. -/
theorem c8_unknown_no_effect (c : Client) (oid sz op : Nat) (rest : List Nat)
    (hoid : oid < 4294967296) (hsz8 : 8 ≤ sz) (hsz : sz < 65536) (hop : op < 65536)
    (hrest : sz - 8 ≤ rest.length)
    (h1 : ¬(oid = 1 ∧ op = 0)) (h2 : ¬(oid = 1 ∧ op = 1))
    (h3 : ¬(op = 0 ∧ lookupObj oid c.objects = some ("wl_registry"))) :
    handle_message c (u32ToBytes oid ++ u32ToBytes (65536 * sz + op) ++ rest) =
      (Outcome.cont, c, rest.drop (sz - 8), []) := by
  rw [handle_message_frame c oid sz op rest hoid hsz hop hsz8 hrest]
  unfold dispatch
  rw [if_neg h1, if_neg h2, if_neg h3]

/-- Witness for C8 at the concrete input: `wl_registry.bind` (opcode 0)
sent to id 2, which is unmapped in the fresh state — the unknown branch. -/
theorem c8_unknown_no_effect_witness :
    (¬((2 : Nat) = 1 ∧ (0 : Nat) = 0)) ∧
    (¬((2 : Nat) = 1 ∧ (0 : Nat) = 1)) ∧
    (¬((0 : Nat) = 0 ∧ lookupObj 2 Client.new.objects = some ("wl_registry"))) ∧
    handle_message Client.new (u32ToBytes 2 ++ u32ToBytes (65536 * 8 + 0) ++ []) =
      (Outcome.cont, Client.new, List.drop (8 - 8) [], []) :=
  ⟨by decide, by decide, by decide,
   c8_unknown_no_effect Client.new 2 8 0 [] (by decide) (by decide) (by decide)
     (by decide) (by decide) (by decide) (by decide) (by decide)⟩

/-- Counterexample to C8 as stated: its example input —
`wl_registry.bind` addressed to id 1, i.e. the pair `(1, 0)` — does NOT
fall into the unknown branch: id 1 is not registered as `wl_registry`
in the fresh state, yet the message dispatches as `wl_display.sync`,
writes 12 response bytes, and alters the object table. -/
theorem c8_bind_id1_counterexample :
    lookupObj 1 Client.new.objects ≠ some ("wl_registry") ∧
    (handle_message Client.new
        (u32ToBytes 1 ++ u32ToBytes (65536 * 12 + 0) ++ u32ToBytes 7)).2.2.2 ≠ [] ∧
    (handle_message Client.new
        (u32ToBytes 1 ++ u32ToBytes (65536 * 12 + 0) ++ u32ToBytes 7)).2.1.objects ≠
      Client.new.objects := by
  decide

/-- C9 (amended): `wl_registry.bind` — opcode 0 to an id mapped to
`"wl_registry"` — writes no bytes, creates no object, leaves the table
and `next_id` unchanged, and returns `Ok(true)`, provided the id is not
1 (a pair `(1, 0)` always dispatches as `wl_display.sync` first). -/
theorem c9_bind_no_effect (c : Client) (oid sz : Nat) (rest : List Nat)
    (hoid : oid < 4294967296) (hne1 : oid ≠ 1) (hsz8 : 8 ≤ sz) (hsz : sz < 65536)
    (hrest : sz - 8 ≤ rest.length)
    (hreg : lookupObj oid c.objects = some ("wl_registry")) :
    handle_message c (u32ToBytes oid ++ u32ToBytes (65536 * sz + 0) ++ rest) =
      (Outcome.cont, c, rest.drop (sz - 8), []) := by
  rw [handle_message_frame c oid sz 0 rest hoid hsz (by omega) hsz8 hrest]
  unfold dispatch
  rw [if_neg (fun h => hne1 h.1), if_neg (fun h => hne1 h.1), if_pos ⟨rfl, hreg⟩]

/-- Witness for C9 at the concrete input: bind to id 2 in a state where
2 maps to `"wl_registry"`. -/
theorem c9_bind_no_effect_witness :
    ((2 : Nat) ≠ 1) ∧
    lookupObj 2 ({ objects := [(1, "wl_display"), (2, "wl_registry")], next_id := 3 } : Client).objects = some ("wl_registry") ∧
    handle_message
        { objects := [(1, "wl_display"), (2, "wl_registry")], next_id := 3 }
        (u32ToBytes 2 ++ u32ToBytes (65536 * 8 + 0) ++ []) =
      (Outcome.cont,
       { objects := [(1, "wl_display"), (2, "wl_registry")], next_id := 3 },
       List.drop (8 - 8) [], []) :=
  ⟨by decide, by decide,
   c9_bind_no_effect { objects := [(1, "wl_display"), (2, "wl_registry")], next_id := 3 }
     2 8 [] (by decide) (by decide) (by decide) (by decide) (by decide) (by decide)⟩

/-- Counterexample to C9 as stated: after `wl_display.get_registry`
with registry id 1, the table maps id 1 to `"wl_registry"`; a following
message `(1, opcode 0)` is then a `wl_registry.bind` by the claim's
condition, yet it dispatches as `wl_display.sync`: it writes 12
response bytes and inserts a callback object. -/
theorem c9_bind_id1_counterexample :
    lookupObj 1 (handle_message Client.new
        (u32ToBytes 1 ++ u32ToBytes (65536 * 12 + 1) ++ u32ToBytes 1)).2.1.objects =
      some ("wl_registry") ∧
    (handle_message
        (handle_message Client.new
          (u32ToBytes 1 ++ u32ToBytes (65536 * 12 + 1) ++ u32ToBytes 1)).2.1
        (u32ToBytes 1 ++ u32ToBytes (65536 * 12 + 0) ++ u32ToBytes 9)).2.2.2 ≠ [] ∧
    (handle_message
        (handle_message Client.new
          (u32ToBytes 1 ++ u32ToBytes (65536 * 12 + 1) ++ u32ToBytes 1)).2.1
        (u32ToBytes 1 ++ u32ToBytes (65536 * 12 + 0) ++ u32ToBytes 9)).2.1.objects ≠
      (handle_message Client.new
        (u32ToBytes 1 ++ u32ToBytes (65536 * 12 + 1) ++ u32ToBytes 1)).2.1.objects := by
  decide

/-- Reading `body[0..3]` from a body that is exactly an encoded `u32`. -/
theorem read_u32_at_0_exact (n : Nat) :
    read_u32_at_0 (u32ToBytes n) = some (n % 4294967296) := by
  show some (u32FromBytes (n % 256) (n / 256 % 256) (n / 65536 % 256)
    (n / 16777216 % 256)) = _
  rw [u32_from_to]

/-- C2 (amended): `wl_display.get_registry` with registry id `r`
registers `r` as `"wl_registry"`, sets `next_id` to `(r + 1) % 2 ^ 32`
(`r + 1` for every `r < 2 ^ 32 − 1`), and writes exactly the three
`wl_registry.global` events for `(1, "wl_compositor", 4)`,
`(2, "xdg_wm_base", 3)`, `(3, "wl_shm", 1)` in that order; in
particular with `r = 2` from the fresh state the table becomes exactly
`{1: "wl_display", 2: "wl_registry"}`. -/
theorem c2_get_registry (c : Client) (r : Nat) (extra : List Nat)
    (hr : r < 4294967296) :
    handle_message c
        (u32ToBytes 1 ++ u32ToBytes (65536 * 12 + 1) ++ (u32ToBytes r ++ extra)) =
      (Outcome.cont,
       { objects := insertObj r ("wl_registry") c.objects,
         next_id := (r + 1) % 4294967296 },
       extra,
       send_global_event_msg r 1 ("wl_compositor") 4
         ++ send_global_event_msg r 2 ("xdg_wm_base") 3
         ++ send_global_event_msg r 3 ("wl_shm") 1) ∧
    (handle_message Client.new
        (u32ToBytes 1 ++ u32ToBytes (65536 * 12 + 1) ++ (u32ToBytes 2 ++ []))).2.1 =
      { objects := [(1, "wl_display"), (2, "wl_registry")], next_id := 3 } := by
  constructor
  · have hlen : 12 - 8 ≤ (u32ToBytes r ++ extra).length := by
      rw [List.length_append]
      show 12 - 8 ≤ 4 + extra.length
      omega
    rw [handle_message_frame c 1 12 1 _ (by omega) (by omega) (by omega) (by omega) hlen]
    have htake : (u32ToBytes r ++ extra).take (12 - 8) = u32ToBytes r := rfl
    have hdrop : (u32ToBytes r ++ extra).drop (12 - 8) = extra := rfl
    rw [htake, hdrop]
    unfold dispatch
    rw [if_neg (by simp), if_pos ⟨rfl, rfl⟩, read_u32_at_0_exact, Nat.mod_eq_of_lt hr]
  · decide

/-- Witness for C2's amended theorem at `r = 2`, fresh state, no
trailing input. -/
theorem c2_get_registry_witness :
    ((2 : Nat) < 4294967296) ∧
    (handle_message Client.new
        (u32ToBytes 1 ++ u32ToBytes (65536 * 12 + 1) ++ (u32ToBytes 2 ++ [])) =
      (Outcome.cont,
       { objects := insertObj 2 ("wl_registry") Client.new.objects,
         next_id := (2 + 1) % 4294967296 },
       [],
       send_global_event_msg 2 1 ("wl_compositor") 4
         ++ send_global_event_msg 2 2 ("xdg_wm_base") 3
         ++ send_global_event_msg 2 3 ("wl_shm") 1) ∧
    (handle_message Client.new
        (u32ToBytes 1 ++ u32ToBytes (65536 * 12 + 1) ++ (u32ToBytes 2 ++ []))).2.1 =
      { objects := [(1, "wl_display"), (2, "wl_registry")], next_id := 3 }) :=
  ⟨by decide, c2_get_registry Client.new 2 [] (by decide)⟩

/-- Counterexample to C2 as stated: with registry id `r = 2 ^ 32 − 1`,
`self.next_id = registry_id + 1` is u32 arithmetic, so `next_id`
becomes 0 (wrapping; a debug build would panic), not `r + 1`. -/
theorem c2_next_id_wrap_counterexample :
    (handle_message Client.new
        (u32ToBytes 1 ++ u32ToBytes (65536 * 12 + 1) ++ u32ToBytes 4294967295)).2.1.next_id = 0 ∧
    (0 : Nat) ≠ 4294967295 + 1 := by
  decide

/-- C6 (amended): the fresh state's table is exactly
`{1: "wl_display"}` with `next_id` 2, and every reachable state still
has an entry for id 1 — though a `sync`/`get_registry` carrying
`new_id` 1 overwrites its interface, so id 1 need not stay
`"wl_display"`. -/
theorem c6_display_entry_persists (c : Client) (h : Reachable c) :
    Client.new.objects = [(1, "wl_display")] ∧ Client.new.next_id = 2 ∧
    (lookupObj 1 c.objects).isSome = true := by
  refine ⟨rfl, rfl, ?_⟩
  induction h with
  | init => rfl
  | step c' input hc ih =>
      rcases handle_message_objects c' input with heq | ⟨k, v, heq⟩
      · rw [heq]
        exact ih
      · rw [heq, lookup_insertObj]
        by_cases hk : k = 1
        · simp [hk]
        · rw [if_neg hk]
          exact ih

/-- Witness for C6's amended theorem at the fresh (reachable) state. -/
theorem c6_display_entry_persists_witness :
    Reachable Client.new ∧
    (Client.new.objects = [(1, "wl_display")] ∧ Client.new.next_id = 2 ∧
      (lookupObj 1 Client.new.objects).isSome = true) :=
  ⟨Reachable.init, c6_display_entry_persists Client.new Reachable.init⟩

/-- Counterexample to C6 as stated: the state reached from the fresh
state by one `wl_display.sync` whose callback id is 1 is reachable,
yet its table maps id 1 to `"wl_callback"`, not `"wl_display"` —
`HashMap::insert` overwrites the display entry. -/
theorem c6_display_overwritten_counterexample :
    Reachable (handle_message Client.new
        (u32ToBytes 1 ++ u32ToBytes (65536 * 12 + 0) ++ u32ToBytes 1)).2.1 ∧
    lookupObj 1 (handle_message Client.new
        (u32ToBytes 1 ++ u32ToBytes (65536 * 12 + 0) ++ u32ToBytes 1)).2.1.objects =
      some ("wl_callback") ∧
    some ("wl_callback") ≠ some ("wl_display") :=
  ⟨Reachable.step Client.new _ Reachable.init, by decide, by decide⟩

/-- Length of the padded string encoding: the source's
`aligned_len = ((len + 1) + 3) & !3`. -/
theorem pad_string_length (s : String) :
    (pad_string s).length = aligned4 ((strBytes s).length + 1) := by
  have h : (strBytes s).length + 1 ≤ aligned4 ((strBytes s).length + 1) := by
    unfold aligned4
    omega
  simp only [pad_string, List.length_append, List.length_replicate,
    List.length_cons, List.length_nil]
  omega

/-- A list followed by a null byte and zero padding ends in a null byte. -/
theorem getLast_append_replicate_zero (l : List Nat) (k : Nat) :
    (l ++ [0] ++ List.replicate k 0).getLast? = some 0 := by
  cases k with
  | zero => simp [List.getLast?_concat]
  | succ n =>
      rw [List.replicate_succ', ← List.append_assoc]
      exact List.getLast?_concat _

/-- C5 (amended): for every object id, 16-bit opcode, and 4-byte-aligned
payload of length at most 65527 (so that `size = 8 + len` fits the
16-bit size field), decoding the encoded header recovers the object id,
the opcode, and the size, and reading `size - 8` body bytes
reconstructs the payload. -/
theorem c5_roundtrip (object_id opcode : Nat) (payload : List Nat)
    (hoid : object_id < 4294967296) (hop : opcode < 65536)
    (halign : payload.length % 4 = 0) (hlen : 8 + payload.length < 65536) :
    decode_header
        ((encode_event object_id opcode payload).getD 0 0)
        ((encode_event object_id opcode payload).getD 1 0)
        ((encode_event object_id opcode payload).getD 2 0)
        ((encode_event object_id opcode payload).getD 3 0)
        ((encode_event object_id opcode payload).getD 4 0)
        ((encode_event object_id opcode payload).getD 5 0)
        ((encode_event object_id opcode payload).getD 6 0)
        ((encode_event object_id opcode payload).getD 7 0) =
      (object_id, 8 + payload.length, opcode) ∧
    ((encode_event object_id opcode payload).drop 8).take (8 + payload.length - 8) =
      payload := by
  have hwlt : 65536 * (8 + payload.length) + opcode < 4294967296 := by omega
  have e1 : encode_event object_id opcode payload =
      u32ToBytes object_id
        ++ u32ToBytes (65536 * (8 + payload.length) + opcode) ++ payload := by
    rw [encode_event, shiftLeft16_lor_eq _ _ hop, Nat.mod_eq_of_lt hwlt]
  rw [e1]
  constructor
  · show decode_header
        (object_id % 256) (object_id / 256 % 256) (object_id / 65536 % 256)
        (object_id / 16777216 % 256)
        ((65536 * (8 + payload.length) + opcode) % 256)
        ((65536 * (8 + payload.length) + opcode) / 256 % 256)
        ((65536 * (8 + payload.length) + opcode) / 65536 % 256)
        ((65536 * (8 + payload.length) + opcode) / 16777216 % 256) = _
    simp only [decode_header, u32_from_to]
    rw [Nat.mod_eq_of_lt hoid, Nat.mod_eq_of_lt hwlt]
    have h1 : (65536 * (8 + payload.length) + opcode) / 65536 = 8 + payload.length := by
      omega
    have h2 : (65536 * (8 + payload.length) + opcode) % 65536 = opcode := by
      omega
    rw [h1, h2]
  · show payload.take (8 + payload.length - 8) = payload
    rw [Nat.add_sub_cancel_left]
    exact List.take_length payload

/-- Witness for C5's amended theorem at object id 7, opcode 5, payload
`[1, 2, 3, 4]`. -/
theorem c5_roundtrip_witness :
    ((7 : Nat) < 4294967296 ∧ (5 : Nat) < 65536 ∧
      ([1, 2, 3, 4] : List Nat).length % 4 = 0 ∧
      8 + ([1, 2, 3, 4] : List Nat).length < 65536) ∧
    (decode_header
        ((encode_event 7 5 [1, 2, 3, 4]).getD 0 0)
        ((encode_event 7 5 [1, 2, 3, 4]).getD 1 0)
        ((encode_event 7 5 [1, 2, 3, 4]).getD 2 0)
        ((encode_event 7 5 [1, 2, 3, 4]).getD 3 0)
        ((encode_event 7 5 [1, 2, 3, 4]).getD 4 0)
        ((encode_event 7 5 [1, 2, 3, 4]).getD 5 0)
        ((encode_event 7 5 [1, 2, 3, 4]).getD 6 0)
        ((encode_event 7 5 [1, 2, 3, 4]).getD 7 0) =
      (7, 8 + ([1, 2, 3, 4] : List Nat).length, 5) ∧
    ((encode_event 7 5 [1, 2, 3, 4]).drop 8).take
        (8 + ([1, 2, 3, 4] : List Nat).length - 8) = [1, 2, 3, 4]) :=
  ⟨⟨by decide, by decide, by decide, by decide⟩,
   c5_roundtrip 7 5 [1, 2, 3, 4] (by decide) (by decide) (by decide) (by decide)⟩

/-- Counterexample to C5 as stated: a 4-byte-aligned payload of 65528
zero bytes makes `size = 8 + 65528 = 2 ^ 16`, whose `size << 16`
vanishes in the 32-bit header word; decoding recovers size 0 (not
`8 + len`), and reading `size - 8` body bytes yields the empty list,
not the payload. -/
theorem c5_roundtrip_counterexample :
    (List.replicate 65528 (0 : Nat)).length % 4 = 0 ∧
    decode_header
        ((encode_event 1 0 (List.replicate 65528 0)).getD 0 0)
        ((encode_event 1 0 (List.replicate 65528 0)).getD 1 0)
        ((encode_event 1 0 (List.replicate 65528 0)).getD 2 0)
        ((encode_event 1 0 (List.replicate 65528 0)).getD 3 0)
        ((encode_event 1 0 (List.replicate 65528 0)).getD 4 0)
        ((encode_event 1 0 (List.replicate 65528 0)).getD 5 0)
        ((encode_event 1 0 (List.replicate 65528 0)).getD 6 0)
        ((encode_event 1 0 (List.replicate 65528 0)).getD 7 0) =
      (1, 0, 0) ∧
    (0 : Nat) ≠ 8 + (List.replicate 65528 (0 : Nat)).length ∧
    ((encode_event 1 0 (List.replicate 65528 0)).drop 8).take (0 - 8) ≠
      List.replicate 65528 (0 : Nat) := by
  have hlen : (List.replicate 65528 (0 : Nat)).length = 65528 :=
    List.length_replicate 65528 0
  have hw0 : (((8 + 65528) <<< 16) ||| 0) % 4294967296 = 0 := by decide
  have e1 : encode_event 1 0 (List.replicate 65528 (0 : Nat)) =
      u32ToBytes 1 ++ u32ToBytes 0 ++ List.replicate 65528 0 := by
    rw [encode_event, hlen, hw0]
  refine ⟨by rw [hlen], ?_, by rw [hlen]; decide, ?_⟩
  · rw [e1]
    rfl
  · rw [e1]
    show ([] : List Nat) ≠ List.replicate 65528 0
    intro hcontra
    have hl := congrArg List.length hcontra
    rw [List.length_nil, hlen] at hl
    exact absurd hl (by decide)

/-- C7: the padded interface-string encoding occupies
`((n + 1) + 3) / 4 * 4` bytes — 8 for `"wl_shm"`, 12 for
`"xdg_wm_base"` — and ends in a null byte; and every event built by
`send_global_event` (with a size that fits the 16-bit field, true of
all three advertised globals) is an 8-byte header whose size field
equals the message's total byte length, then the 4-byte name, the
padded interface string, and the 4-byte version, in that order. -/
theorem c7_pad_and_layout (s interface : String) (registry_id name version : Nat)
    (hrid : registry_id < 4294967296)
    (hsz : 16 + aligned4 ((strBytes interface).length + 1) < 65536) :
    (pad_string s).length = ((strBytes s).length + 1 + 3) / 4 * 4 ∧
    (pad_string ("wl_shm")).length = 8 ∧
    (pad_string ("xdg_wm_base")).length = 12 ∧
    (pad_string s).getLast? = some 0 ∧
    send_global_event_msg registry_id name interface version =
      u32ToBytes registry_id
        ++ u32ToBytes ((16 + aligned4 ((strBytes interface).length + 1)) * 65536)
        ++ (u32ToBytes name ++ pad_string interface ++ u32ToBytes version) ∧
    (send_global_event_msg registry_id name interface version).length =
      16 + aligned4 ((strBytes interface).length + 1) ∧
    decode_header
        ((send_global_event_msg registry_id name interface version).getD 0 0)
        ((send_global_event_msg registry_id name interface version).getD 1 0)
        ((send_global_event_msg registry_id name interface version).getD 2 0)
        ((send_global_event_msg registry_id name interface version).getD 3 0)
        ((send_global_event_msg registry_id name interface version).getD 4 0)
        ((send_global_event_msg registry_id name interface version).getD 5 0)
        ((send_global_event_msg registry_id name interface version).getD 6 0)
        ((send_global_event_msg registry_id name interface version).getD 7 0) =
      (registry_id, 16 + aligned4 ((strBytes interface).length + 1), 0) := by
  have hweq : ((16 + aligned4 ((strBytes interface).length + 1)) <<< 16) % 4294967296 =
      (16 + aligned4 ((strBytes interface).length + 1)) * 65536 := by
    rw [Nat.shiftLeft_eq]
    have h16 : (2 : Nat) ^ 16 = 65536 := by norm_num
    rw [h16]
    exact Nat.mod_eq_of_lt (by omega :
      (16 + aligned4 ((strBytes interface).length + 1)) * 65536 < 4294967296)
  have hm : send_global_event_msg registry_id name interface version =
      u32ToBytes registry_id
        ++ u32ToBytes ((16 + aligned4 ((strBytes interface).length + 1)) * 65536)
        ++ (u32ToBytes name ++ pad_string interface ++ u32ToBytes version) := by
    show u32ToBytes registry_id
        ++ u32ToBytes (((16 + aligned4 ((strBytes interface).length + 1)) <<< 16) % 4294967296)
        ++ u32ToBytes name ++ pad_string interface ++ u32ToBytes version = _
    rw [hweq]
    simp [List.append_assoc]
  refine ⟨?_, by decide, by decide, ?_, hm, ?_, ?_⟩
  · rw [pad_string_length]
    unfold aligned4
    rfl
  · show (strBytes s ++ [0] ++ List.replicate
        (aligned4 ((strBytes s).length + 1) - ((strBytes s).length + 1)) 0).getLast? = some 0
    exact getLast_append_replicate_zero _ _
  · rw [hm]
    simp only [List.length_append, List.length_cons, List.length_nil, u32ToBytes,
      pad_string_length]
    omega
  · rw [hm]
    show decode_header
        (registry_id % 256) (registry_id / 256 % 256) (registry_id / 65536 % 256)
        (registry_id / 16777216 % 256)
        (((16 + aligned4 ((strBytes interface).length + 1)) * 65536) % 256)
        (((16 + aligned4 ((strBytes interface).length + 1)) * 65536) / 256 % 256)
        (((16 + aligned4 ((strBytes interface).length + 1)) * 65536) / 65536 % 256)
        (((16 + aligned4 ((strBytes interface).length + 1)) * 65536) / 16777216 % 256) = _
    simp only [decode_header, u32_from_to]
    rw [Nat.mod_eq_of_lt hrid, Nat.mod_eq_of_lt (by omega :
      (16 + aligned4 ((strBytes interface).length + 1)) * 65536 < 4294967296)]
    have h1 : ((16 + aligned4 ((strBytes interface).length + 1)) * 65536) / 65536 =
        16 + aligned4 ((strBytes interface).length + 1) := by omega
    have h2 : ((16 + aligned4 ((strBytes interface).length + 1)) * 65536) % 65536 = 0 := by
      omega
    rw [h1, h2]

/-- Witness for C7 at `s = "wl_shm"` and the `wl_compositor` global as
actually sent: registry id 2, name 1, version 4. -/
theorem c7_pad_and_layout_witness :
    ((2 : Nat) < 4294967296 ∧
      16 + aligned4 ((strBytes ("wl_compositor")).length + 1) < 65536) ∧
    ((pad_string ("wl_shm")).length = ((strBytes ("wl_shm")).length + 1 + 3) / 4 * 4 ∧
    (pad_string ("wl_shm")).length = 8 ∧
    (pad_string ("xdg_wm_base")).length = 12 ∧
    (pad_string ("wl_shm")).getLast? = some 0 ∧
    send_global_event_msg 2 1 ("wl_compositor") 4 =
      u32ToBytes 2
        ++ u32ToBytes ((16 + aligned4 ((strBytes ("wl_compositor")).length + 1)) * 65536)
        ++ (u32ToBytes 1 ++ pad_string ("wl_compositor") ++ u32ToBytes 4) ∧
    (send_global_event_msg 2 1 ("wl_compositor") 4).length =
      16 + aligned4 ((strBytes ("wl_compositor")).length + 1) ∧
    decode_header
        ((send_global_event_msg 2 1 ("wl_compositor") 4).getD 0 0)
        ((send_global_event_msg 2 1 ("wl_compositor") 4).getD 1 0)
        ((send_global_event_msg 2 1 ("wl_compositor") 4).getD 2 0)
        ((send_global_event_msg 2 1 ("wl_compositor") 4).getD 3 0)
        ((send_global_event_msg 2 1 ("wl_compositor") 4).getD 4 0)
        ((send_global_event_msg 2 1 ("wl_compositor") 4).getD 5 0)
        ((send_global_event_msg 2 1 ("wl_compositor") 4).getD 6 0)
        ((send_global_event_msg 2 1 ("wl_compositor") 4).getD 7 0) =
      (2, 16 + aligned4 ((strBytes ("wl_compositor")).length + 1), 0)) :=
  ⟨⟨by decide, by decide⟩,
   c7_pad_and_layout ("wl_shm") ("wl_compositor") 2 1 4 (by decide) (by decide)⟩

end Wayland
